import Mathlib

/-!
Verification of the MapShare web map viewer.

Shallow embedding of the core logic of the map component
(place search, nearby-content fetching, article-browser cursor) and of the
server-side geocode proxy route handler.

JavaScript numbers that may be NaN are modelled by the type JsNum below;
finite coordinate values are rationals, which represent the decimal literals
of the source exactly.  Fallible network calls are modelled by passing the
(possibly failed) parsed response as an `Except` value to the handler under
verification: an `Except.error` stands for a network failure, a non-ok HTTP
status where the source throws on it, or a parse failure of the body.
-/

/-- A JavaScript number: either an ordinary (here: rational) value or NaN. -/
inductive JsNum where
  | num (q : Rat)
  | nan
  deriving DecidableEq

/-- The three tile-layer ids of the source's `mapLayers` record. -/
inductive LayerId where
  | standard
  | satellite
  | explore
  deriving DecidableEq

/-- The tile template URL for each layer (the `mapLayers` constant). -/
def mapLayers : LayerId → String
  | .standard => "https://{s}.tile.openstreetmap.org/{z}/{x}/{y}.png"
  | .satellite => "https://server.arcgisonline.com/ArcGIS/rest/services/World_Imagery/MapServer/tile/{z}/{y}/{x}"
  | .explore => "https://{s}.tile.opentopomap.org/{z}/{x}/{y}.png"

/-- Thumbnail record of a `WikiArticle` (interface `WikiArticle` in the
source). -/
structure Thumbnail where
  source : String
  width : Nat
  height : Nat
  deriving DecidableEq

/-- The `WikiArticle` view model: `lat` and `lon` are `number | null` in the
source, modelled as `Option Rat`. -/
structure WikiArticle where
  pageid : Nat
  title : String
  extract : String
  fullurl : String
  lat : Option Rat
  lon : Option Rat
  thumbnail : Option Thumbnail
  deriving DecidableEq

/-- A page record of the hydration response (`articleData.query.pages`).
The field `coordinates` models `page.coordinates`: when present, its first
element carries the pair (lat, lon); when absent the source stores `null`
for both coordinates of the article. -/
structure Page where
  pageid : Nat
  title : String
  extract : String
  fullurl : String
  coordinates : Option (Rat × Rat)
  thumbnail : Option Thumbnail
  deriving DecidableEq

/-- The mapping from a hydration page to a `WikiArticle` (the `.map` inside
`fetchWikiArticles`): `lat` and `lon` are taken from `page.coordinates[0]`
when coordinates are present and are `null` (here: `none`) otherwise. -/
def toArticle (page : Page) : WikiArticle :=
  { pageid := page.pageid
    title := page.title
    extract := page.extract
    fullurl := page.fullurl
    lat := page.coordinates.map Prod.fst
    lon := page.coordinates.map Prod.snd
    thumbnail := page.thumbnail }

/-- The coordinate filter applied before storing the fetched articles:
`articles.filter((article) => article.lat !== null && article.lon !== null)`. -/
def filterArticles (articles : List WikiArticle) : List WikiArticle :=
  articles.filter fun a => a.lat.isSome && a.lon.isSome

/-- Model of `fetchWikiArticles`, with the two network responses passed in:
`disc` is the parsed geosearch (discovery) response, reduced to its list of
`pageid`s, and `hyd` the parsed hydration response.  A network or parse
failure of either call is an `Except.error` and lands in the single `catch`
of the source, which stores the empty list.  The joined-and-length-tested
`pageIds` string of the source is reproduced literally.  Returns the article
list passed to `setWikiArticles`, paired with whether the hydration request
was issued. -/
def fetchWikiArticles (disc : Except Unit (List Nat))
    (hyd : Except Unit (List Page)) : List WikiArticle × Bool :=
  match disc with
  | .error _ => ([], false)
  | .ok geosearch =>
    let pageIds := String.intercalate "|" (geosearch.map (fun n => toString n))
    if pageIds.length = 0 then ([], false)
    else
      match hyd with
      | .error _ => ([], true)
      | .ok pages => (filterArticles (pages.map toArticle), true)

/-- The article-browser part of the component state: the `wikiArticles` list
and the `currentArticleIndex` cursor. -/
structure BrowserState where
  wikiArticles : List WikiArticle
  currentArticleIndex : Int
  deriving DecidableEq

/-- The state update performed when a completed fetch stores its result:
`setWikiArticles(articles)` with no accompanying write to
`currentArticleIndex` (the source never resets the cursor on replacement). -/
def applyFetchResult (s : BrowserState) (articles : List WikiArticle) :
    BrowserState :=
  { wikiArticles := articles, currentArticleIndex := s.currentArticleIndex }

/-- Direction argument of `navigateArticle`. -/
inductive NavDir where
  | next
  | prev
  deriving DecidableEq

/-- Model of `navigateArticle` as a function on the cursor: `next` maps `i`
to `(i + 1) % len`, `prev` to `(i - 1 + len) % len`, with the JavaScript
remainder operator (`Int.tmod`, which agrees with JavaScript `%` on integer
operands).  When `len = 0` the JavaScript remainder is NaN; that case is
returned as `none`. -/
def navigateArticle (dir : NavDir) (len : Nat) (i : Int) : Option Int :=
  if len = 0 then none
  else
    match dir with
    | .next => some (Int.tmod (i + 1) (len : Int))
    | .prev => some (Int.tmod (i - 1 + (len : Int)) (len : Int))

/-- Whether the previous/next buttons are disabled: both carry
disabled = (wikiArticles.length <= 1). -/
def navDisabled (len : Nat) : Bool :=
  decide (len ≤ 1)

/-- Pressing a navigation button: a disabled button fires no click handler;
an enabled one runs `navigateArticle` and stores the new cursor.  The `none`
branch is unreachable, because the button is disabled whenever the list
length is below 2. -/
def clickNavigate (dir : NavDir) (s : BrowserState) : BrowserState :=
  if navDisabled s.wikiArticles.length then s
  else
    match navigateArticle dir s.wikiArticles.length s.currentArticleIndex with
    | some j => { s with currentArticleIndex := j }
    | none => s

/-- Iterating `navigateArticle` a number of times (NaN propagates). -/
def iterNavigate (dir : NavDir) (len : Nat) : Nat → Int → Option Int
  | 0, i => some i
  | k + 1, i => (navigateArticle dir len i).bind (iterNavigate dir len k)

/-- Numeric value of a decimal digit character. -/
def digitVal (c : Char) : Nat := c.toNat - 48

/-- The natural number denoted by a list of decimal digit characters. -/
def natOfDigits (l : List Char) : Nat :=
  l.foldl (fun a c => 10 * a + digitVal c) 0

/-- Model of JavaScript `Number.parseFloat` on the plain decimal literals the
geocoder returns: an optional sign, integer digits and an optional fraction
part; the longest such prefix is parsed and trailing characters are ignored.
A string with no digits in that prefix parses to NaN.  (Exponents and leading
whitespace, which do not occur in the coordinate strings, are not
modelled.) -/
def parseFloatChars (l : List Char) : JsNum :=
  let signRest : Int × List Char :=
    match l with
    | '-' :: t => (-1, t)
    | '+' :: t => (1, t)
    | t => (1, t)
  let intPart := signRest.2.takeWhile Char.isDigit
  let afterInt := signRest.2.dropWhile Char.isDigit
  let fracPart :=
    match afterInt with
    | '.' :: t => t.takeWhile Char.isDigit
    | _ => []
  if intPart.isEmpty && fracPart.isEmpty then .nan
  else
    let scale : Nat := 10 ^ fracPart.length
    let mant : Int :=
      signRest.1 * ((natOfDigits intPart * scale + natOfDigits fracPart : Nat) : Int)
    .num (mkRat mant scale)

/-- `Number.parseFloat` on a string. -/
def parseFloat (s : String) : JsNum := parseFloatChars s.data

/-- The map-surface state: viewport center, zoom level and active tile
layer. -/
structure MapState where
  center : JsNum × JsNum
  zoom : Nat
  currentLayer : LayerId
  deriving DecidableEq

/-- `setView(center, zoom)` on the map handle. -/
def setView (s : MapState) (center : JsNum × JsNum) (zoom : Nat) : MapState :=
  { s with center := center, zoom := zoom }

/-- The state set up by the map-initialisation effect:
`setView([51.505, -0.09], 13)`, the standard tile layer mounted, and the
`currentLayer` state initialised to the standard layer. -/
def initMapState : MapState :=
  { center := (.num (51.505 : Rat), .num (-0.09 : Rat))
    zoom := 13
    currentLayer := .standard }

/-- A geocoder search result as consumed by `handleResultSelect`: `lat` and
`lon` are numeric strings. -/
structure SearchResult where
  lat : String
  lon : String
  display_name : String
  deriving DecidableEq

/-- Model of `handleResultSelect`: parse the result's coordinate strings,
recenter the viewport there at zoom 13 and request a nearby-content fetch for
that coordinate.  Returns the new map state and the coordinate handed to
`fetchWikiArticles`. -/
def handleResultSelect (result : SearchResult) (s : MapState) :
    MapState × (JsNum × JsNum) :=
  let lat := parseFloat result.lat
  let lon := parseFloat result.lon
  (setView s (lat, lon) 13, (lat, lon))

/-- Model of `handleSearch`, with the parsed response of the proxy call
passed in (`Except.error` for a network failure or a non-ok status, on which
the source throws).  Returns the map state, whether the search network call
was issued, and the coordinate of the triggered nearby-content fetch, if
any. -/
def handleSearch (searchQuery : String)
    (resp : Except Unit (List SearchResult)) (s : MapState) :
    MapState × Bool × Option (JsNum × JsNum) :=
  if searchQuery.length > 2 then
    match resp with
    | .error _ => (s, true, none)
    | .ok data =>
      match data with
      | [] => (s, true, none)
      | r :: _ =>
        let res := handleResultSelect r s
        (res.1, true, some res.2)
  else (s, false, none)

/-- The body of a proxy response: an error envelope or a passed-through
upstream JSON body. -/
inductive RouteBody where
  | errJson (msg : String)
  | json (data : String)
  deriving DecidableEq

/-- The upstream geocoder's response: HTTP ok-flag and raw JSON body. -/
structure UpstreamResp where
  ok : Bool
  body : String
  deriving DecidableEq

/-- The `GET` route handler of the geocode proxy: `q` models
`searchParams.get("q")` (`none` when the parameter is absent), and `upstream`
the result of the upstream fetch (`Except.error` carries the message of a
thrown network error).  The guard reproduces the JavaScript falsiness test on
the query (null or empty string).  Returns HTTP status and body. -/
def GET (q : Option String) (upstream : Except String UpstreamResp) :
    Nat × RouteBody :=
  if q = none ∨ q = some "" then
    (400, .errJson "Query parameter is required")
  else
    match upstream with
    | .error _ => (500, .errJson "Failed to fetch search results")
    | .ok r =>
      if r.ok then (200, .json r.body)
      else (500, .errJson "Failed to fetch search results")

/-- A sample article used in concrete evaluations. -/
def sampleArticle (n : Nat) : WikiArticle :=
  { pageid := n, title := toString n, extract := "", fullurl := "",
    lat := some 1, lon := some 2, thumbnail := none }

/-- A sample hydration page with coordinates. -/
def samplePage : Page :=
  { pageid := 7, title := "Tower", extract := "e", fullurl := "u",
    coordinates := some (1, 2), thumbnail := none }

/-- The Paris geocoder result of the search scenario. -/
def parisResult : SearchResult :=
  { lat := "48.8566", lon := "2.3522", display_name := "Paris, France" }

/-- Claim C1, failing evaluation: after a completed fetch replaces a
3-article list whose cursor is at index 2 by a 1-article list, the cursor is
still 2 — it is not reset to 0 — and therefore points past the end of the
new list while that list is non-empty. -/
theorem applyFetchResult_stale_cursor :
    (applyFetchResult
        { wikiArticles := [sampleArticle 1, sampleArticle 2, sampleArticle 3],
          currentArticleIndex := 2 }
        [sampleArticle 4]).currentArticleIndex = 2 ∧
      (applyFetchResult
          { wikiArticles := [sampleArticle 1, sampleArticle 2, sampleArticle 3],
            currentArticleIndex := 2 }
          [sampleArticle 4]).wikiArticles.length = 1 ∧
      ¬ ((2 : Int) < 1) := by
  refine ⟨rfl, rfl, by decide⟩

/-- Claim C2: whenever the hydration request was issued and its response
parsed, an article appears in the stored list iff it is the image of a
hydration page and carries both a `lat` and a `lon`. -/
theorem mem_fetchWikiArticles_iff (ids : List Nat) (pages : List Page)
    (a : WikiArticle)
    (h : (fetchWikiArticles (.ok ids) (.ok pages)).2 = true) :
    a ∈ (fetchWikiArticles (.ok ids) (.ok pages)).1 ↔
      a ∈ pages.map toArticle ∧ a.lat.isSome = true ∧ a.lon.isSome = true := by
  unfold fetchWikiArticles at h ⊢
  by_cases hlen :
      (String.intercalate "|" (ids.map (fun n => toString n))).length = 0
  · simp [hlen] at h
  · simp only [hlen, if_false, if_neg hlen]
    simp [filterArticles, List.mem_filter, and_assoc]

/-- Witness for claim C2: a concrete page with coordinates lands in the
stored list. -/
theorem mem_fetchWikiArticles_iff_witness :
    toArticle samplePage ∈ (fetchWikiArticles (.ok [7]) (.ok [samplePage])).1 :=
  (mem_fetchWikiArticles_iff [7] [samplePage] (toArticle samplePage)
      (by decide)).mpr (by decide)

/-- Claim C3: a network or parse failure at either phase of the
nearby-content fetch resolves to the empty article list, and storing that
result fully replaces any prior list — no stale article survives. -/
theorem fetchWikiArticles_failure_empty (disc : Except Unit (List Nat))
    (hyd : Except Unit (List Page)) (s : BrowserState)
    (h : disc = .error () ∨ hyd = .error ()) :
    (fetchWikiArticles disc hyd).1 = [] ∧
      (applyFetchResult s (fetchWikiArticles disc hyd).1).wikiArticles = [] := by
  have hmain : (fetchWikiArticles disc hyd).1 = [] := by
    rcases h with h | h
    · subst h; rfl
    · subst h
      cases disc with
      | error e => rfl
      | ok ids =>
        unfold fetchWikiArticles
        by_cases hlen :
            (String.intercalate "|" (ids.map (fun n => toString n))).length = 0 <;>
          simp [hlen]
  exact ⟨hmain, by simp [applyFetchResult, hmain]⟩

/-- Witness for claim C3: a concrete hydration failure empties a concrete
prior state. -/
theorem fetchWikiArticles_failure_empty_witness :
    (fetchWikiArticles (.ok [1]) (.error ())).1 = [] ∧
      (applyFetchResult
          { wikiArticles := [sampleArticle 1], currentArticleIndex := 0 }
          (fetchWikiArticles (.ok [1]) (.error ())).1).wikiArticles = [] :=
  fetchWikiArticles_failure_empty (.ok [1]) (.error ())
    { wikiArticles := [sampleArticle 1], currentArticleIndex := 0 }
    (Or.inr rfl)

/-- Claim C4: the proxy returns 400 with an error body exactly when the
query parameter is absent or empty; with a present non-empty query it
returns the upstream body verbatim with status 200 when the upstream call
succeeds, and on any upstream failure (network error or non-2xx status) a
500 with a fixed generic error body that is independent of the underlying
error. -/
theorem GET_contract (q : Option String) (u : Except String UpstreamResp) :
    (GET q u = (400, .errJson "Query parameter is required") ↔
      q = none ∨ q = some "") ∧
    (∀ s r, q = some s → s ≠ "" → u = .ok r → r.ok = true →
      GET q u = (200, .json r.body)) ∧
    (∀ s, q = some s → s ≠ "" →
      ((∃ e, u = .error e) ∨ ∃ r, u = .ok r ∧ r.ok = false) →
      GET q u = (500, .errJson "Failed to fetch search results")) := by
  refine ⟨?_, ?_, ?_⟩
  · by_cases hq : q = none ∨ q = some ""
    · simp [GET, hq]
    · simp only [GET, if_neg hq]
      cases u with
      | error e => simp [hq]
      | ok r => by_cases hr : r.ok <;> simp [hr, hq]
  · intro s r hq hs hu hr
    subst hq; subst hu
    simp [GET, hs, hr]
  · intro s hq hs hfail
    subst hq
    rcases hfail with ⟨e, he⟩ | ⟨r, hu, hr⟩
    · subst he; simp [GET, hs]
    · subst hu; simp [GET, hs, hr]

/-- Witness for claim C4: a concrete present query with a successful
upstream call passes the upstream body through with status 200. -/
theorem GET_contract_witness :
    GET (some "Paris") (.ok { ok := true, body := "[]" }) =
      (200, .json "[]") := by
  have h := GET_contract (some "Paris") (.ok { ok := true, body := "[]" })
  exact h.2.1 "Paris" { ok := true, body := "[]" } rfl (by decide) rfl rfl

/-- Claim C5: a dispatched search (query longer than 2 characters) whose
response is a non-empty result list recenters the viewport on the first
result's parsed coordinate at zoom 13 and triggers a nearby-content fetch
for exactly that coordinate. -/
theorem handleSearch_success (q : String) (r : SearchResult)
    (rest : List SearchResult) (s : MapState) (hq : q.length > 2) :
    handleSearch q (.ok (r :: rest)) s =
      (setView s (parseFloat r.lat, parseFloat r.lon) 13, true,
        some (parseFloat r.lat, parseFloat r.lon)) := by
  simp [handleSearch, hq, handleResultSelect]

/-- Witness for claim C5, the Paris scenario: the viewport center becomes
(48.8566, 2.3522) at zoom 13 and the geosearch is triggered there. -/
theorem handleSearch_success_witness :
    handleSearch "Paris" (.ok [parisResult]) initMapState =
      ({ center := (.num (48.8566 : Rat), .num (2.3522 : Rat)), zoom := 13,
          currentLayer := .standard }, true,
        some (.num (48.8566 : Rat), .num (2.3522 : Rat))) := by
  have h := handleSearch_success "Paris" parisResult [] initMapState (by decide)
  rw [h]
  have h1 : (48.8566 : Rat) = mkRat 488566 (10 ^ 4) := Rat.ofScientific_true_def
  have h2 : (2.3522 : Rat) = mkRat 23522 (10 ^ 4) := Rat.ofScientific_true_def
  rw [h1, h2]
  decide

/-- Claim C7: a query of length at most 2 issues no network call and leaves
the map state unchanged. -/
theorem handleSearch_short (q : String)
    (resp : Except Unit (List SearchResult)) (s : MapState)
    (hq : q.length ≤ 2) :
    handleSearch q resp s = (s, false, none) := by
  have h : ¬ q.length > 2 := by omega
  simp [handleSearch, h]

/-- Witness for claim C7: a two-character query does nothing. -/
theorem handleSearch_short_witness :
    handleSearch "ab" (.ok []) initMapState = (initMapState, false, none) :=
  handleSearch_short "ab" (.ok []) initMapState (by decide)

/-- Claim C6: a discovery response with zero identifiers yields the empty
article list and the hydration request is never issued. -/
theorem fetchWikiArticles_no_ids (hyd : Except Unit (List Page)) :
    fetchWikiArticles (.ok []) hyd = ([], false) := rfl

/-- Claim C8: with at most one article, both navigation buttons are reported
disabled, and pressing either leaves the state (in particular the cursor)
unchanged. -/
theorem clickNavigate_short (s : BrowserState)
    (h : s.wikiArticles.length ≤ 1) :
    clickNavigate .next s = s ∧ clickNavigate .prev s = s ∧
      navDisabled s.wikiArticles.length = true := by
  have hd : navDisabled s.wikiArticles.length = true := by
    simp [navDisabled, h]
  exact ⟨by simp [clickNavigate, hd], by simp [clickNavigate, hd], hd⟩

/-- Witness for claim C8: a concrete one-article state is left unchanged by
both buttons, which are disabled. -/
theorem clickNavigate_short_witness :
    clickNavigate .next
        { wikiArticles := [sampleArticle 1], currentArticleIndex := 0 } =
      { wikiArticles := [sampleArticle 1], currentArticleIndex := 0 } ∧
    clickNavigate .prev
        { wikiArticles := [sampleArticle 1], currentArticleIndex := 0 } =
      { wikiArticles := [sampleArticle 1], currentArticleIndex := 0 } ∧
    navDisabled
        (BrowserState.wikiArticles
          { wikiArticles := [sampleArticle 1], currentArticleIndex := 0 }).length
      = true :=
  clickNavigate_short
    { wikiArticles := [sampleArticle 1], currentArticleIndex := 0 } (by decide)

/-- The cursor step taken by one `navigateArticle` call, viewed as an
addition modulo the list length: `next` adds 1 and `prev` adds `len - 1`. -/
def navStep (dir : NavDir) (len : Nat) : Int :=
  match dir with
  | .next => 1
  | .prev => (len : Int) - 1

/-- On a non-empty list and a non-negative cursor, `navigateArticle` is the
addition of `navStep` modulo the list length. -/
theorem navigateArticle_eq (dir : NavDir) (len : Nat) (hlen : 0 < len)
    (i : Int) (hi : 0 ≤ i) :
    navigateArticle dir len i =
      some ((i + navStep dir len) % (len : Int)) := by
  have hne : len ≠ 0 := Nat.pos_iff_ne_zero.mp hlen
  cases dir with
  | next =>
    simp only [navigateArticle, if_neg hne, navStep]
    rw [Int.tmod_eq_emod (by omega) (by omega)]
  | prev =>
    simp only [navigateArticle, if_neg hne, navStep]
    rw [Int.tmod_eq_emod (by omega) (by omega)]
    have harg : i - 1 + (len : Int) = i + ((len : Int) - 1) := by ring
    rw [harg]

/-- Iterating `navigateArticle` from a valid cursor accumulates `navStep`
modulo the list length. -/
theorem iterNavigate_eq (dir : NavDir) (len : Nat) (hlen : 0 < len)
    (k : Nat) :
    ∀ i : Int, 0 ≤ i → i < len →
      iterNavigate dir len k i =
        some ((i + k * navStep dir len) % (len : Int)) := by
  induction k with
  | zero =>
    intro i h0 hlt
    simp [iterNavigate, Int.emod_eq_of_lt h0 hlt]
  | succ k ih =>
    intro i h0 hlt
    have hne : (len : Int) ≠ 0 := by omega
    have hpos : (0 : Int) < (len : Int) := by omega
    rw [iterNavigate, navigateArticle_eq dir len hlen i h0]
    show iterNavigate dir len k ((i + navStep dir len) % (len : Int)) = _
    have h0' : 0 ≤ (i + navStep dir len) % (len : Int) :=
      Int.emod_nonneg _ hne
    have hlt' : (i + navStep dir len) % (len : Int) < (len : Int) :=
      Int.emod_lt_of_pos _ hpos
    rw [ih _ h0' hlt', Int.emod_add_emod]
    have harg : i + navStep dir len + (k : Int) * navStep dir len =
        i + ((k : Nat) + 1 : Nat) * navStep dir len := by
      push_cast
      ring
    rw [harg]

/-- Claim C9: on a list of length N > 0, starting from any valid cursor
index, N `next` steps return the cursor to its starting value, and so do N
`prev` steps. -/
theorem iterNavigate_cycle (N : Nat) (i : Int) (hN : 0 < N) (h0 : 0 ≤ i)
    (hlt : i < N) :
    iterNavigate .next N N i = some i ∧ iterNavigate .prev N N i = some i := by
  constructor <;>
    rw [iterNavigate_eq _ N hN N i h0 hlt, Int.add_mul_emod_self_left,
      Int.emod_eq_of_lt h0 hlt]

/-- Witness for claim C9: three steps in either direction on a length-3 list
starting at index 0 return to index 0. -/
theorem iterNavigate_cycle_witness :
    iterNavigate .next 3 3 0 = some 0 ∧ iterNavigate .prev 3 3 0 = some 0 :=
  iterNavigate_cycle 3 0 (by decide) (by decide) (by decide)

/-- Claim C10: the initial viewport is centered at (51.505, -0.09) with zoom
level 13 and the standard tile layer active. -/
theorem initMapState_spec :
    initMapState.center = (.num (51.505 : Rat), .num (-0.09 : Rat)) ∧
      initMapState.zoom = 13 ∧
      initMapState.currentLayer = .standard ∧
      mapLayers initMapState.currentLayer =
        "https://{s}.tile.openstreetmap.org/{z}/{x}/{y}.png" :=
  ⟨rfl, rfl, rfl, rfl⟩
